import Mathlib

/-!
Verification of the SR-IOV / Ethernet reconciliation logic of
`src/libnmstate/ifaces/ethernet.py`.

The interface's `_info` dictionary is shallowly embedded as the structure
`EthernetIface` below; the nested `ethernet`, `sr-iov` and per-VF
dictionaries become the structures `EthConf`, `SriovConf` and `VfConf`.
Absent dictionary keys are `Option.none`; field values carry the types of
the data model (booleans, integers, strings), matching well-typed input
documents.  Mutating methods become pure functions from the state to a new
state; methods that can raise a lookup error (`KeyError`) on a missing key
return `Option`, with `none` modelling the raised error.
-/

set_option autoImplicit false

namespace NmstateEthernet

/-- Key name of the VF `id` field (schema constant, document shape key `id`). -/
def SRIOV_VFS_ID : String := "id"

/-- Key name of the VF MAC field (document shape key `mac-address`). -/
def SRIOV_VFS_MAC_ADDRESS : String := "mac-address"

/-- Key name of the VF spoof-check field (document shape key `spoof-check`). -/
def SRIOV_VFS_SPOOF_CHECK : String := "spoof-check"

/-- Key name of the VF trust field (document shape key `trust`). -/
def SRIOV_VFS_TRUST : String := "trust"

/-- Key name of the VF max-tx-rate field (document shape key `max-tx-rate`). -/
def SRIOV_VFS_MAX_TX_RATE : String := "max-tx-rate"

/-- Key name of the VF min-tx-rate field (document shape key `min-tx-rate`). -/
def SRIOV_VFS_MIN_TX_RATE : String := "min-tx-rate"

/-- Key name of the auto-negotiation field (document shape key `auto-negotiation`). -/
def AUTO_NEGOTIATION : String := "auto-negotiation"

/-- Key name of the speed field (document shape key `speed`). -/
def SPEED : String := "speed"

/-- Key name of the duplex field (document shape key `duplex`). -/
def DUPLEX : String := "duplex"

/-- Key name of the total-vfs field (document shape key `total-vfs`). -/
def SRIOV_TOTAL_VFS : String := "total-vfs"

/-- Schema constant `InterfaceType.ETHERNET`. -/
def InterfaceType_ETHERNET : String := "ethernet"

/-- Schema constant `InterfaceState.DOWN`. -/
def InterfaceState_DOWN : String := "down"

/-- Source constant `BNXT_DRIVER_PHYS_PORT_PREFIX = "p"`. -/
def BNXT_DRIVER_PHYS_PORT_PREFIX : String := "p"

/-- Source constant `MULTIPORT_PCI_DEVICE_PREFIX = "n"`. -/
def MULTIPORT_PCI_DEVICE_PREFIX : String := "n"

/-- Source constant `DUPLEX_VALID_VALUES = ["full", "half"]`. -/
def DUPLEX_VALID_VALUES : List String := ["full", "half"]

/-- The separator `multiport_pattern = MULTIPORT_PCI_DEVICE_PREFIX +
BNXT_DRIVER_PHYS_PORT_PREFIX` computed in `create_sriov_vf_ifaces`. -/
def multiport_pattern : String :=
  MULTIPORT_PCI_DEVICE_PREFIX ++ BNXT_DRIVER_PHYS_PORT_PREFIX

theorem multiport_pattern_eq : multiport_pattern = "np" := rfl

/-- One VF descriptor dictionary (an element of `ethernet.sr-iov.vfs`). -/
structure VfConf where
  id : Option Int
  mac_address : Option String
  spoof_check : Option Bool
  trust : Option Bool
  max_tx_rate : Option Int
  min_tx_rate : Option Int
deriving DecidableEq, Repr

/-- The `ethernet.sr-iov` sub-dictionary. -/
structure SriovConf where
  total_vfs : Option Int
  vfs : Option (List VfConf)
deriving DecidableEq, Repr

/-- The `ethernet` config sub-dictionary. -/
structure EthConf where
  auto_negotiation : Option Bool
  speed : Option Int
  duplex : Option String
  sriov : Option SriovConf
deriving DecidableEq, Repr

/-- The `_info` dictionary of an `EthernetIface`: the top-level interface
keys `name`, `type`, `state`, the `ethernet` subtree and the transient
`_is_generated_vf` metadata key. -/
structure EthernetIface where
  name : String
  type : Option String
  state : Option String
  ethernet : Option EthConf
  is_generated_vf_meta : Option Bool
deriving DecidableEq, Repr

namespace EthernetIface

/-- Property `auto_negotiation`: `raw.get(CONFIG, {}).get(AUTO_NEGOTIATION)`. -/
def auto_negotiation (s : EthernetIface) : Option Bool :=
  s.ethernet.bind (fun c => c.auto_negotiation)

/-- Property `speed`: `raw.get(CONFIG, {}).get(SPEED)`. -/
def speed (s : EthernetIface) : Option Int :=
  s.ethernet.bind (fun c => c.speed)

/-- Property `duplex`: `raw.get(CONFIG, {}).get(DUPLEX)`. -/
def duplex (s : EthernetIface) : Option String :=
  s.ethernet.bind (fun c => c.duplex)

/-- The `ethernet.sr-iov` subtree, `raw.get(CONFIG, {}).get(SRIOV_SUBTREE)`. -/
def sriov (s : EthernetIface) : Option SriovConf :=
  s.ethernet.bind (fun c => c.sriov)

/-- Property `sriov_total_vfs`: the `total-vfs` value, defaulting to 0. -/
def sriov_total_vfs (s : EthernetIface) : Int :=
  ((s.sriov.bind (fun sr => sr.total_vfs)).getD 0)

/-- Property `sriov_vfs`: the `vfs` list, defaulting to the empty list. -/
def sriov_vfs (s : EthernetIface) : List VfConf :=
  ((s.sriov.bind (fun sr => sr.vfs)).getD [])

/-- Property `is_generated_vf`: `self._info.get(IS_GENERATED_VF_METADATA) is True`. -/
def is_generated_vf (s : EthernetIface) : Bool :=
  s.is_generated_vf_meta = some true

/-- Static method `_canonicalize`: when the `auto-negotiation` value is
truthy (for a boolean value: `true`), pop `speed` and `duplex` from the
config subtree. -/
def _canonicalize (s : EthernetIface) : EthernetIface :=
  if s.auto_negotiation = some true then
    { s with
      ethernet := s.ethernet.map (fun c => { c with speed := none, duplex := none }) }
  else s

end EthernetIface

/-- Python `str.upper()`, as the character-wise uppercase map (MAC
addresses only contain ASCII hexadecimal digits and colons, for which the
character-wise ASCII mapping agrees with Python's). -/
def pyUpper (s : String) : String := (s.data.map Char.toUpper).asString

/-- Uppercasing of one VF descriptor's MAC, as done by the loop body of
`_capitalize_sriov_vf_mac`: `if vf_mac:` (truthy: present and non-empty)
then replace by `vf_mac.upper()`. -/
def capitalizeVfMac (vf : VfConf) : VfConf :=
  match vf.mac_address with
  | none => vf
  | some m => if m ≠ "" then { vf with mac_address := some (pyUpper m) } else vf

/-- Free function `_capitalize_sriov_vf_mac(state)`: uppercase the MAC of
every VF descriptor in `ethernet.sr-iov.vfs` (no-op on absent subtrees). -/
def _capitalize_sriov_vf_mac (s : EthernetIface) : EthernetIface :=
  { s with
    ethernet := s.ethernet.map (fun c =>
      { c with sriov := c.sriov.map (fun sr =>
        { sr with vfs := sr.vfs.map (fun l => l.map capitalizeVfMac) }) }) }

namespace EthernetIface

/-- Modelled from the spec: the base entity's `state_for_verify`
(`BaseIface.state_for_verify`, not part of this repository's sources)
produces a copy of the entity's comparable state; §4.9 attributes all
ethernet-specific filtering to the steps below, so the base snapshot is
the identity copy of the state. -/
def base_state_for_verify (s : EthernetIface) : EthernetIface := s

/-- Method `state_for_verify`: take the base snapshot, uppercase VF MACs,
canonicalize, and for a generated VF pop the `state` key. -/
def state_for_verify (s : EthernetIface) : EthernetIface :=
  let st := _canonicalize (_capitalize_sriov_vf_mac (base_state_for_verify s))
  if s.is_generated_vf then { st with state := none } else st

end EthernetIface

/-- Cons a character onto the first chunk of a split result (helper for the
Python `str.split` embeddings below). -/
def consHead (c : Char) : List (List Char) → List (List Char)
  | [] => [[c]]
  | hd :: tl => (c :: hd) :: tl

/-- Python `s.split("np")` on the character list of `s`: leftmost,
non-overlapping splitting on the two-character separator
`multiport_pattern = "np"`. -/
def splitNp : List Char → List (List Char)
  | [] => [[]]
  | 'n' :: 'p' :: rest => [] :: splitNp rest
  | c :: rest => consHead c (splitNp rest)

/-- Python `s.split(":")` on the character list of `s`. -/
def splitColon : List Char → List (List Char)
  | [] => [[]]
  | ':' :: rest => [] :: splitColon rest
  | c :: rest => consHead c (splitColon rest)

namespace EthernetIface

/-- The `vf_pattern` computed by `create_sriov_vf_ifaces` from the PF name:
`name` unless `name.split("np")` has exactly two parts, in which case the
first part. -/
def vf_pattern_of (name : String) : String :=
  if (splitNp name.data).length = 2 then ((splitNp name.data).headD name.data).asString
  else name

/-- The derived VF interface name `f"{vf_pattern}v{i}"` used by
`create_sriov_vf_ifaces` (indices produced by `range` are non-negative,
so a natural-number index renders exactly as Python's `f"{i}"`). -/
def vf_name (name : String) (i : Nat) : String :=
  vf_pattern_of name ++ "v" ++ toString i

/-- Method `create_sriov_vf_ifaces`: for `i in range(0, sriov_total_vfs)`
build an interface dict with the derived name, ethernet type and DOWN
state, then set the `_is_generated_vf` metadata key on each. -/
def create_sriov_vf_ifaces (s : EthernetIface) : List EthernetIface :=
  (List.range s.sriov_total_vfs.toNat).map (fun i =>
    { name := vf_name s.name i
      type := some InterfaceType_ETHERNET
      state := some InterfaceState_DOWN
      ethernet := none
      is_generated_vf_meta := some true })

end EthernetIface

/-- Runs `n` successive Python `list.pop()` calls on `l` (each removes the last
element); `none` models the `IndexError` of popping an empty list. -/
def popN : List VfConf → Nat → Option (List VfConf)
  | l, 0 => some l
  | [], _ + 1 => none
  | c :: cs, n + 1 => popN (c :: cs).dropLast n

/-- Python `range(a, b)` over integers, as a list. -/
def int_range (a b : Int) : List Int :=
  (List.range (b - a).toNat).map (fun k => a + k)

namespace EthernetIface

/-- Method `remove_vfs_entry_when_total_vfs_decreased`.  The source indexes
`self._info[CONFIG_SUBTREE]` (and, in the popping branch,
`[SRIOV_SUBTREE][VFS_SUBTREE]`) directly, so a missing key raises
`KeyError`; `none` models that raise.  Otherwise, when the current VF list
is longer than `total-vfs`, it pops `len(vfs) - total_vfs` times from the
end of the list. -/
def remove_vfs_entry_when_total_vfs_decreased (s : EthernetIface) :
    Option EthernetIface :=
  match s.ethernet with
  | none => none
  | some c =>
    let vfs_count := ((c.sriov.bind (fun sr => sr.vfs)).getD []).length
    if (vfs_count : Int) > s.sriov_total_vfs then
      match c.sriov with
      | none => none
      | some sr =>
        match sr.vfs with
        | none => none
        | some vfs =>
          match popN vfs ((vfs_count : Int) - s.sriov_total_vfs).toNat with
          | none => none
          | some vfs2 =>
            some { s with
              ethernet := some { c with sriov := some { sr with vfs := some vfs2 } } }
    else some s

/-- Method `get_delete_vf_interface_names`: names `f"{self.name}v{i}"` for
`i in range(self.sriov_total_vfs, old_sriov_total_vfs)` (note: the raw
interface name, not the `vf_pattern` of `create_sriov_vf_ifaces`). -/
def get_delete_vf_interface_names (s : EthernetIface)
    (old_sriov_total_vfs : Int) : List String :=
  (int_range s.sriov_total_vfs old_sriov_total_vfs).map
    (fun i => s.name ++ "v" ++ toString i)

/-- Method `check_total_vfs_matches_vf_list`. -/
def check_total_vfs_matches_vf_list (s : EthernetIface) (total_vfs : Int) :
    Bool :=
  total_vfs = (s.sriov_vfs.length : Int)

end EthernetIface

/-- The error raised by the external field validators: `ValidationError{field, reason}`. -/
structure ValidationError where
  field : String
  reason : String
deriving DecidableEq, Repr

/-- Modelled from the spec: `validateBoolean(value, fieldName)` of the
external Field Validator (`libnmstate.validator.validate_boolean`, not in
this repository's sources).  Absent values are valid; under the §3 data
model a present value is a boolean, so the check always passes (a type
mismatch is not representable in the typed embedding). -/
def validate_boolean (_v : Option Bool) (_field : String) :
    Option ValidationError :=
  none

/-- Modelled from the spec: `validateInteger(value, fieldName, minimum)` of
the external Field Validator.  Absent values are valid; a present value
below the minimum fails with an error naming the field. -/
def validate_integer (v : Option Int) (field : String) (minimum : Int) :
    Option ValidationError :=
  match v with
  | none => none
  | some n =>
    if n < minimum then some { field := field, reason := "value below minimum for " ++ field }
    else none

/-- Modelled from the spec: `validateString(value, fieldName, allowedValues)`
of the external Field Validator, enum form.  Absent values are valid; a
present value outside the allowed set fails with an error naming the field. -/
def validate_string_enum (v : Option String) (field : String)
    (valid_values : List String) : Option ValidationError :=
  match v with
  | none => none
  | some x =>
    if x ∈ valid_values then none
    else some { field := field, reason := "invalid value for " ++ field }

/-- A hexadecimal digit character. -/
def isHexDigitChar (c : Char) : Bool :=
  c.isDigit || ('a' ≤ c && c ≤ 'f') || ('A' ≤ c && c ≤ 'F')

/-- Modelled from the spec: a full match of the MAC pattern
`^([0-9a-fA-F]{2}:){3,31}[0-9a-fA-F]{2}$`, i.e. 4 to 32 colon-separated
groups of exactly two hexadecimal digits. -/
def mac_pattern_matches (s : String) : Bool :=
  let gs := splitColon s.data
  decide (4 ≤ gs.length) && decide (gs.length ≤ 32) &&
    gs.all (fun g => decide (g.length = 2) && g.all isHexDigitChar)

/-- Modelled from the spec: `validateString(value, fieldName, pattern)` of
the external Field Validator, applied with the MAC-address pattern.
Absent values are valid; a present value not matching the pattern fails
with an error naming the field. -/
def validate_string_mac (v : Option String) (field : String) :
    Option ValidationError :=
  match v with
  | none => none
  | some x =>
    if mac_pattern_matches x then none
    else some { field := field, reason := "value does not match pattern for " ++ field }

/-- Raise (throw) a validator result in the `Except` monad: an error result
propagates, a passing check continues. -/
def raiseOpt (o : Option ValidationError) : Except ValidationError Unit :=
  match o with
  | some e => Except.error e
  | none => Except.ok ()

/-- The six validator calls of the `for vf in self.sriov_vfs` loop body of
`_validate_ethernet_properties`, in source order. -/
def validateVf (vf : VfConf) : Except ValidationError Unit := do
  raiseOpt (validate_integer vf.id SRIOV_VFS_ID 0)
  raiseOpt (validate_string_mac vf.mac_address SRIOV_VFS_MAC_ADDRESS)
  raiseOpt (validate_boolean vf.spoof_check SRIOV_VFS_SPOOF_CHECK)
  raiseOpt (validate_boolean vf.trust SRIOV_VFS_TRUST)
  raiseOpt (validate_integer vf.max_tx_rate SRIOV_VFS_MAX_TX_RATE 0)
  raiseOpt (validate_integer vf.min_tx_rate SRIOV_VFS_MIN_TX_RATE 0)

/-- The `for vf in self.sriov_vfs` loop of `_validate_ethernet_properties`:
validate each descriptor in declaration order, stopping at the first
raised error. -/
def validateVfList : List VfConf → Except ValidationError Unit
  | [] => Except.ok ()
  | vf :: rest => do
    validateVf vf
    validateVfList rest

namespace EthernetIface

/-- Method `_validate_ethernet_properties`: the validator calls of source
lines 113-145, in source order, in the exception monad (the first failing
check raises and skips the rest).  Note `self.sriov_total_vfs` is passed
through the defaulting property, so it is always a present integer. -/
def _validate_ethernet_properties (s : EthernetIface) :
    Except ValidationError Unit := do
  raiseOpt (validate_boolean s.auto_negotiation AUTO_NEGOTIATION)
  raiseOpt (validate_string_enum s.duplex DUPLEX DUPLEX_VALID_VALUES)
  raiseOpt (validate_integer s.speed SPEED 0)
  raiseOpt (validate_integer (some s.sriov_total_vfs) SRIOV_TOTAL_VFS 0)
  validateVfList s.sriov_vfs

end EthernetIface

/-- The ordered result list of the checks §4.2 prescribes for one VF
descriptor: id, macAddress, spoofCheck, trust, maxTxRate, minTxRate. -/
def vfCheckList (vf : VfConf) : List (Option ValidationError) :=
  [validate_integer vf.id SRIOV_VFS_ID 0,
   validate_string_mac vf.mac_address SRIOV_VFS_MAC_ADDRESS,
   validate_boolean vf.spoof_check SRIOV_VFS_SPOOF_CHECK,
   validate_boolean vf.trust SRIOV_VFS_TRUST,
   validate_integer vf.max_tx_rate SRIOV_VFS_MAX_TX_RATE 0,
   validate_integer vf.min_tx_rate SRIOV_VFS_MIN_TX_RATE 0]

/-- The ordered result list of all checks §4.2 prescribes:
autoNegotiation, duplex, speed, totalVfs, then the per-descriptor checks
in declaration order. -/
def ethernetCheckList (s : EthernetIface) : List (Option ValidationError) :=
  [validate_boolean s.auto_negotiation AUTO_NEGOTIATION,
   validate_string_enum s.duplex DUPLEX DUPLEX_VALID_VALUES,
   validate_integer s.speed SPEED 0,
   validate_integer (some s.sriov_total_vfs) SRIOV_TOTAL_VFS 0] ++
  s.sriov_vfs.flatMap vfCheckList

/-- The outcome §4.2 specifies: fail with the first violated constraint's
error, succeed if no constraint is violated. -/
def firstFailureResult (l : List (Option ValidationError)) :
    Except ValidationError Unit :=
  match l.findSome? id with
  | some e => Except.error e
  | none => Except.ok ()

/-- Modelled from the spec: the §4.4 naming base — if `P` contains the
two-character marker `"np"` and splitting `P` on that marker yields
exactly two parts, the naming base is the first part; otherwise the
naming base is `P` unchanged. -/
def specVfBase (P : String) : String :=
  if ['n', 'p'] <:+: P.data ∧ (splitNp P.data).length = 2 then
    ((splitNp P.data).headD P.data).asString
  else P

/-! ## Helper lemmas -/

theorem consHead_ne_nil (c : Char) (l : List (List Char)) : consHead c l ≠ [] := by
  cases l <;> simp [consHead]

theorem consHead_length (c : Char) (l : List (List Char)) (h : l ≠ []) :
    (consHead c l).length = l.length := by
  cases l with
  | nil => exact absurd rfl h
  | cons hd tl => rfl

theorem splitNp_ne_nil (l : List Char) : splitNp l ≠ [] := by
  induction l using splitNp.induct with
  | case1 => simp [splitNp]
  | case2 rest ih => simp [splitNp]
  | case3 c rest h ih =>
    rw [splitNp.eq_3 c rest h]
    exact consHead_ne_nil _ _

theorem splitNp_length_two_contains_np (l : List Char)
    (h2 : 2 ≤ (splitNp l).length) : ['n', 'p'] <:+: l := by
  induction l using splitNp.induct with
  | case1 => simp [splitNp] at h2
  | case2 rest ih => exact ⟨[], rest, rfl⟩
  | case3 c rest h ih =>
    rw [splitNp.eq_3 c rest h, consHead_length c _ (splitNp_ne_nil rest)] at h2
    obtain ⟨s, t, hst⟩ := ih h2
    exact ⟨c :: s, t, by rw [← hst]; rfl⟩

/-! ## Claims -/

/-- Claim C3: for every PF name and index, the derived VF name is
`base + "v" + i`, where `base` is the first part of splitting the name on
`"np"` when the name contains `"np"` and the split yields exactly two
parts, and the name unchanged otherwise; in particular `"ens2f0np0"` with
index 0 yields `"ens2f0v0"` and `"eth0"` with index 0 yields `"eth0v0"`. -/
theorem c3_vf_name_derivation :
    (∀ (P : String) (i : Nat),
      EthernetIface.vf_name P i = specVfBase P ++ "v" ++ toString i) ∧
    EthernetIface.vf_name "ens2f0np0" 0 = "ens2f0v0" ∧
    EthernetIface.vf_name "eth0" 0 = "eth0v0" := by
  refine ⟨?_, by decide, by decide⟩
  intro P i
  unfold EthernetIface.vf_name EthernetIface.vf_pattern_of specVfBase
  by_cases h : (splitNp P.data).length = 2
  · rw [if_pos h, if_pos ⟨splitNp_length_two_contains_np _ (by omega), h⟩]
  · rw [if_neg h, if_neg (fun hc => h hc.2)]

/-- A physical function named `"ens2f0np0"` (the multiport/bnxt naming
case) with no further configuration, so its `sriov_total_vfs` is 0. -/
def pfBnxt : EthernetIface :=
  { name := "ens2f0np0", type := none, state := none, ethernet := none,
    is_generated_vf_meta := none }

/-- Claim C1: `get_delete_vf_interface_names` builds names from the raw
interface name, not from the §4.4 naming base used by
`create_sriov_vf_ifaces`: at PF `"ens2f0np0"` with `oldTotalVfs = 1` and
`newTotalVfs = 0` it returns `["ens2f0np0v0"]`, while the §4.4-derived VF
name for index 0 is `"ens2f0v0"`. -/
theorem c1_delete_names_use_raw_pf_name :
    pfBnxt.get_delete_vf_interface_names 1 = ["ens2f0np0v0"] ∧
    EthernetIface.vf_name "ens2f0np0" 0 = "ens2f0v0" ∧
    pfBnxt.get_delete_vf_interface_names 1 ≠
      [EthernetIface.vf_name "ens2f0np0" 0] := by
  exact ⟨by decide, by decide, by decide⟩

/-- Claim C4: `create_sriov_vf_ifaces` returns exactly `totalVfs` entities
in ascending index order; the `i`-th has the §4.4-derived name for index
`i`, ethernet type, DOWN state, and carries the generated-VF tag. -/
theorem c4_create_sriov_vf_ifaces (s : EthernetIface) (n : Nat)
    (h : s.sriov_total_vfs = (n : Int)) :
    (s.create_sriov_vf_ifaces).length = n ∧
    (∀ i, i < n → (s.create_sriov_vf_ifaces)[i]? = some
      { name := EthernetIface.vf_name s.name i,
        type := some InterfaceType_ETHERNET,
        state := some InterfaceState_DOWN,
        ethernet := none,
        is_generated_vf_meta := some true }) ∧
    (∀ vf ∈ s.create_sriov_vf_ifaces, vf.is_generated_vf = true) := by
  have hn : s.sriov_total_vfs.toNat = n := by rw [h]; exact Int.toNat_ofNat n
  unfold EthernetIface.create_sriov_vf_ifaces
  rw [hn]
  refine ⟨by simp, ?_, ?_⟩
  · intro i hi
    simp [List.getElem?_map, List.getElem?_range, hi]
  · intro vf hvf
    rw [List.mem_map] at hvf
    obtain ⟨i, hi, rfl⟩ := hvf
    rfl

/-- A physical function `"eth0"` declaring `total-vfs: 2` and no VF list. -/
def pfWithTwoVfs : EthernetIface :=
  { name := "eth0", type := some InterfaceType_ETHERNET, state := none,
    ethernet := some
      { auto_negotiation := none, speed := none, duplex := none,
        sriov := some { total_vfs := some 2, vfs := none } },
    is_generated_vf_meta := none }

/-- Witness for claim C4 at a PF declaring two VFs. -/
theorem c4_create_sriov_vf_ifaces_witness :
    (pfWithTwoVfs.create_sriov_vf_ifaces).length = 2 :=
  (c4_create_sriov_vf_ifaces pfWithTwoVfs 2 (by decide)).1

theorem auto_negotiation_canonicalize (s : EthernetIface) :
    (s._canonicalize).auto_negotiation = s.auto_negotiation := by
  unfold EthernetIface._canonicalize
  split
  · simp only [EthernetIface.auto_negotiation]
    cases s.ethernet <;> simp
  · rfl

/-- Claim C6: for every state whose `auto-negotiation` is true, the
canonicalized state contains neither the `speed` nor the `duplex` key of
the ethernet config subtree (the accessors, which read those keys, return
`none`).  `_canonicalize` is a total Lean function, so it never raises. -/
theorem c6_canonicalize_removes_speed_duplex (s : EthernetIface)
    (h : s.auto_negotiation = some true) :
    (s._canonicalize).speed = none ∧ (s._canonicalize).duplex = none := by
  unfold EthernetIface._canonicalize
  rw [if_pos h]
  simp only [EthernetIface.speed, EthernetIface.duplex]
  cases s.ethernet <;> simp

/-- An interface with auto-negotiation enabled together with explicit
speed and duplex values. -/
def ethAutoNegOn : EthernetIface :=
  { name := "eth1", type := some InterfaceType_ETHERNET, state := some "up",
    ethernet := some
      { auto_negotiation := some true, speed := some 1000,
        duplex := some "full", sriov := none },
    is_generated_vf_meta := none }

/-- Witness for claim C6 at a state with auto-negotiation enabled. -/
theorem c6_canonicalize_removes_speed_duplex_witness :
    ethAutoNegOn._canonicalize.speed = none :=
  (c6_canonicalize_removes_speed_duplex ethAutoNegOn (by decide)).1

/-- Claim C7: `_canonicalize` is idempotent. -/
theorem c7_canonicalize_idempotent (s : EthernetIface) :
    s._canonicalize._canonicalize = s._canonicalize := by
  by_cases h : s.auto_negotiation = some true
  · have e1 : s._canonicalize =
        { s with ethernet := s.ethernet.map (fun c => { c with speed := none, duplex := none }) } := by
      simp [EthernetIface._canonicalize, h]
    have h2 : s._canonicalize.auto_negotiation = some true := by
      rw [auto_negotiation_canonicalize]; exact h
    rw [e1] at h2 ⊢
    simp only [EthernetIface._canonicalize, h2, if_pos]
    cases s.ethernet <;> simp
  · have e1 : s._canonicalize = s := by
      simp [EthernetIface._canonicalize, h]
    rw [e1]
    exact e1

/-- Claim C10 (frame property of `_canonicalize`): when `auto-negotiation`
is absent or not true the state is entirely unchanged; in every case the
top-level fields, the presence of the ethernet subtree, and the subtree's
`auto-negotiation` and `sr-iov` fields are unchanged — only `speed` and
`duplex` may change. -/
theorem c10_canonicalize_frame (s : EthernetIface) :
    (s.auto_negotiation ≠ some true → s._canonicalize = s) ∧
    s._canonicalize.name = s.name ∧
    s._canonicalize.type = s.type ∧
    s._canonicalize.state = s.state ∧
    s._canonicalize.is_generated_vf_meta = s.is_generated_vf_meta ∧
    (s._canonicalize.ethernet).isSome = (s.ethernet).isSome ∧
    s._canonicalize.auto_negotiation = s.auto_negotiation ∧
    s._canonicalize.sriov = s.sriov := by
  refine ⟨fun h => by simp [EthernetIface._canonicalize, h], ?_⟩
  refine ⟨?_, ?_, ?_, ?_, ?_, auto_negotiation_canonicalize s, ?_⟩ <;>
    (unfold EthernetIface._canonicalize; split)
  all_goals (try rfl)
  all_goals (simp only [EthernetIface.sriov]; cases s.ethernet <;> simp)

/-- Witness for claim C10 at a state without an ethernet subtree (so with
`auto-negotiation` absent): canonicalization is the identity there. -/
theorem c10_canonicalize_frame_witness : pfBnxt._canonicalize = pfBnxt :=
  (c10_canonicalize_frame pfBnxt).1 (by decide)

theorem popN_eq_take : ∀ (n : Nat) (l : List VfConf), n ≤ l.length →
    popN l n = some (l.take (l.length - n)) := by
  intro n
  induction n with
  | zero => intro l h; simp [popN]
  | succ n ih =>
    intro l h
    cases l with
    | nil => simp at h
    | cons c cs =>
      rw [popN]
      have hle : n ≤ (c :: cs).dropLast.length := by
        simp [List.length_dropLast] at h ⊢
        omega
      rw [ih _ hle]
      congr 1
      rw [List.dropLast_eq_take, List.take_take]
      congr 1
      simp [List.length_dropLast, List.length_take]

theorem remove_vfs_sound (s : EthernetIface) (c : EthConf)
    (h1 : s.ethernet = some c) (h2 : 0 ≤ s.sriov_total_vfs) :
    ∃ s2, s.remove_vfs_entry_when_total_vfs_decreased = some s2 ∧
      s2.sriov_vfs = s.sriov_vfs.take s.sriov_total_vfs.toNat ∧
      (s.sriov_vfs.length ≤ s.sriov_total_vfs.toNat → s2 = s) := by
  cases hsr : c.sriov with
  | none =>
    refine ⟨s, ?_, ?_, fun _ => rfl⟩
    · simp [EthernetIface.remove_vfs_entry_when_total_vfs_decreased, h1, hsr,
        EthernetIface.sriov_total_vfs, EthernetIface.sriov]
    · simp [EthernetIface.sriov_vfs, EthernetIface.sriov, h1, hsr]
  | some sr =>
    cases hv : sr.vfs with
    | none =>
      refine ⟨s, ?_, ?_, fun _ => rfl⟩
      · simp only [EthernetIface.remove_vfs_entry_when_total_vfs_decreased, h1, hsr, hv,
          Option.some_bind, Option.getD_none, List.length_nil]
        rw [if_neg (by omega)]
      · simp [EthernetIface.sriov_vfs, EthernetIface.sriov, h1, hsr, hv]
    | some vfs =>
      have hvfs : s.sriov_vfs = vfs := by
        simp [EthernetIface.sriov_vfs, EthernetIface.sriov, h1, hsr, hv]
      by_cases hgt : ((vfs.length : Int) > s.sriov_total_vfs)
      · have hple : ((vfs.length : Int) - s.sriov_total_vfs).toNat ≤ vfs.length := by
          omega
        have heq : s.remove_vfs_entry_when_total_vfs_decreased =
            some { s with ethernet := some { c with sriov := some { sr with vfs := some (vfs.take (vfs.length - ((vfs.length : Int) - s.sriov_total_vfs).toNat)) } } } := by
          simp only [EthernetIface.remove_vfs_entry_when_total_vfs_decreased, h1, hsr, hv,
            Option.some_bind, Option.getD_some]
          rw [if_pos hgt, popN_eq_take _ _ hple]
        refine ⟨_, heq, ?_, ?_⟩
        · rw [hvfs]
          simp [EthernetIface.sriov_vfs, EthernetIface.sriov]
          omega
        · intro hle
          rw [hvfs] at hle
          omega
      · refine ⟨s, ?_, ?_, fun _ => rfl⟩
        · simp only [EthernetIface.remove_vfs_entry_when_total_vfs_decreased, h1, hsr, hv,
            Option.some_bind, Option.getD_some]
          rw [if_neg hgt]
        · rw [hvfs, List.take_of_length_le (by omega)]

/-- Claim C5: on a state carrying an ethernet config (and, as §3 requires
of well-typed input, a non-negative `total-vfs`), the trimming method
succeeds, the resulting VF list is exactly the first `totalVfs` elements
of the original list in their original order and identity, and the state
is entirely unchanged when the list was already within bounds. -/
theorem c5_trim_vf_descriptors (s : EthernetIface) (c : EthConf)
    (h1 : s.ethernet = some c) (h2 : 0 ≤ s.sriov_total_vfs) :
    (s.remove_vfs_entry_when_total_vfs_decreased).isSome = true ∧
    ∀ s2, s.remove_vfs_entry_when_total_vfs_decreased = some s2 →
      s2.sriov_vfs = s.sriov_vfs.take s.sriov_total_vfs.toNat ∧
      (s.sriov_vfs.length ≤ s.sriov_total_vfs.toNat → s2 = s) := by
  obtain ⟨s2, heq, hvfs, hid⟩ := remove_vfs_sound s c h1 h2
  refine ⟨by simp [heq], ?_⟩
  intro s3 h3
  rw [heq] at h3
  have hs : s2 = s3 := Option.some.inj h3
  subst hs
  exact ⟨hvfs, hid⟩

/-- A VF descriptor carrying only an `id`. -/
def vfWithId (n : Int) : VfConf :=
  { id := some n, mac_address := none, spoof_check := none, trust := none,
    max_tx_rate := none, min_tx_rate := none }

/-- A PF with a five-element VF list but `total-vfs: 2`. -/
def pfFiveVfsTotalTwo : EthernetIface :=
  { name := "eth0", type := some InterfaceType_ETHERNET, state := none,
    ethernet := some
      { auto_negotiation := none, speed := none, duplex := none,
        sriov := some { total_vfs := some 2, vfs := some [vfWithId 0, vfWithId 1, vfWithId 2, vfWithId 3, vfWithId 4] } },
    is_generated_vf_meta := none }

/-- Witness for claim C5 at a five-element VF list with `total-vfs` 2. -/
theorem c5_trim_vf_descriptors_witness :
    (pfFiveVfsTotalTwo.remove_vfs_entry_when_total_vfs_decreased).isSome = true :=
  (c5_trim_vf_descriptors pfFiveVfsTotalTwo _ rfl (by decide)).1

/-- Claim C9 (amended): the canonicalization, normalization, derivation,
generation and planning operations are total Lean functions, and the
shrink reconciler does not fail on well-typed input **whose ethernet
config subtree is present** (in particular not when only the `sr-iov`
subtree is absent); when the ethernet subtree itself is absent the source
raises `KeyError` (see the counterexample). -/
theorem c9_reconciliation_no_failure (s : EthernetIface) (c : EthConf)
    (h1 : s.ethernet = some c) (h2 : 0 ≤ s.sriov_total_vfs) :
    (s.remove_vfs_entry_when_total_vfs_decreased).isSome = true := by
  obtain ⟨s2, heq, -, -⟩ := remove_vfs_sound s c h1 h2
  simp [heq]

/-- An interface state without an ethernet config subtree. -/
def ifaceNoEthernet : EthernetIface :=
  { name := "eth1", type := some InterfaceType_ETHERNET, state := some "up",
    ethernet := none, is_generated_vf_meta := none }

/-- Counterexample to claim C9 as stated: with the ethernet config subtree
absent, `remove_vfs_entry_when_total_vfs_decreased` looks up
`self._info[Ethernet.CONFIG_SUBTREE]` directly and raises `KeyError`
(modelled by `none`), rather than not failing. -/
theorem c9_counterexample_ethernet_absent :
    ifaceNoEthernet.remove_vfs_entry_when_total_vfs_decreased = none := rfl

/-- Witness for claim C9 at a state whose `sr-iov` subtree is absent. -/
theorem c9_reconciliation_no_failure_witness :
    (ethAutoNegOn.remove_vfs_entry_when_total_vfs_decreased).isSome = true :=
  c9_reconciliation_no_failure ethAutoNegOn _ rfl (by decide)



theorem validateVf_eq (vf : VfConf) :
    validateVf vf = firstFailureResult (vfCheckList vf) := by
  unfold validateVf vfCheckList
  cases validate_integer vf.id SRIOV_VFS_ID 0 <;>
    cases validate_string_mac vf.mac_address SRIOV_VFS_MAC_ADDRESS <;>
      cases validate_boolean vf.spoof_check SRIOV_VFS_SPOOF_CHECK <;>
        cases validate_boolean vf.trust SRIOV_VFS_TRUST <;>
          cases validate_integer vf.max_tx_rate SRIOV_VFS_MAX_TX_RATE 0 <;>
            cases validate_integer vf.min_tx_rate SRIOV_VFS_MIN_TX_RATE 0 <;>
              rfl

theorem validateVfList_eq (l : List VfConf) :
    validateVfList l = firstFailureResult (l.flatMap vfCheckList) := by
  induction l with
  | nil => rfl
  | cons vf rest ih =>
    have h := validateVf_eq vf
    rw [validateVfList, List.flatMap_cons]
    cases hf : (vfCheckList vf).findSome? id with
    | some e =>
      have hv : validateVf vf = Except.error e := by
        rw [h]; unfold firstFailureResult; rw [hf]
      simp only [hv, firstFailureResult, List.findSome?_append, hf, Option.or]
      rfl
    | none =>
      have hv : validateVf vf = Except.ok () := by
        rw [h]; unfold firstFailureResult; rw [hf]
      simp only [hv, ih, firstFailureResult, List.findSome?_append, hf, Option.or]
      rfl

/-- Claim C2: `_validate_ethernet_properties` runs its checks in exactly
the §4.2 order (autoNegotiation, duplex, speed, totalVfs, then per VF
descriptor in declaration order: id, macAddress, spoofCheck, trust,
maxTxRate, minTxRate), fails with the `ValidationError` of the first
violated constraint and skips all later checks: it equals the
first-failure outcome of the ordered check list.  The embedding is a pure
function of the state, so no mutation occurs. -/
theorem c2_validate_fail_fast (s : EthernetIface) :
    s._validate_ethernet_properties = firstFailureResult (ethernetCheckList s) := by
  unfold EthernetIface._validate_ethernet_properties ethernetCheckList
  cases validate_boolean s.auto_negotiation AUTO_NEGOTIATION <;>
    cases validate_string_enum s.duplex DUPLEX DUPLEX_VALID_VALUES <;>
      cases validate_integer s.speed SPEED 0 <;>
        cases validate_integer (some s.sriov_total_vfs) SRIOV_TOTAL_VFS 0 <;>
          (simp only [raiseOpt, firstFailureResult, List.findSome?_cons, validateVfList_eq,
            List.findSome?_append, id, List.nil_append, List.findSome?_nil, Option.or]; rfl)



theorem sriov_vfs_canonicalize (s : EthernetIface) :
    s._canonicalize.sriov_vfs = s.sriov_vfs := by
  unfold EthernetIface._canonicalize
  split
  · simp only [EthernetIface.sriov_vfs, EthernetIface.sriov]
    cases s.ethernet <;> simp
  · rfl

theorem sriov_vfs_capitalize (s : EthernetIface) :
    (_capitalize_sriov_vf_mac s).sriov_vfs = s.sriov_vfs.map capitalizeVfMac := by
  unfold _capitalize_sriov_vf_mac
  simp only [EthernetIface.sriov_vfs, EthernetIface.sriov]
  cases s.ethernet with
  | none => rfl
  | some c =>
    simp only [Option.map_some, Option.some_bind]
    cases hsr : c.sriov with
    | none => simp [hsr]
    | some sr =>
      cases hv : sr.vfs with
      | none => simp [hsr, hv]
      | some l => simp [hsr, hv]

theorem canonicalize_removes_speed_duplex (s : EthernetIface)
    (h : s.auto_negotiation = some true) :
    s._canonicalize.speed = none ∧ s._canonicalize.duplex = none := by
  unfold EthernetIface._canonicalize
  rw [if_pos h]
  simp only [EthernetIface.speed, EthernetIface.duplex]
  cases s.ethernet <;> simp

/-- Claim C8: the verification snapshot of a generated-VF entity never
contains the administrative-state field, regardless of the entity's
actual state value; its VF descriptors are exactly the originals with
MACs uppercased, and it is canonicalized (no speed/duplex when
auto-negotiation is true). -/
theorem c8_state_for_verify_generated (s : EthernetIface)
    (h : s.is_generated_vf = true) :
    (s.state_for_verify).state = none ∧
    (s.state_for_verify).sriov_vfs = s.sriov_vfs.map capitalizeVfMac ∧
    ((s.state_for_verify).auto_negotiation = some true →
      (s.state_for_verify).speed = none ∧ (s.state_for_verify).duplex = none) := by
  have hsv : s.state_for_verify =
      { EthernetIface._canonicalize (_capitalize_sriov_vf_mac s) with state := none } := by
    unfold EthernetIface.state_for_verify EthernetIface.base_state_for_verify
    rw [h]
    simp
  rw [hsv]
  refine ⟨rfl, ?_, ?_⟩
  · show (EthernetIface._canonicalize (_capitalize_sriov_vf_mac s)).sriov_vfs = s.sriov_vfs.map capitalizeVfMac
    rw [sriov_vfs_canonicalize, sriov_vfs_capitalize]
  · intro ha
    have ha2 : (_capitalize_sriov_vf_mac s).auto_negotiation = some true := by
      rw [← auto_negotiation_canonicalize]
      exact ha
    exact canonicalize_removes_speed_duplex _ ha2

/-- A generated VF entity as produced by `create_sriov_vf_ifaces`. -/
def genVf0 : EthernetIface :=
  { name := "eth0v0", type := some InterfaceType_ETHERNET,
    state := some InterfaceState_DOWN, ethernet := none,
    is_generated_vf_meta := some true }

/-- Witness for claim C8 at a concrete generated VF. -/
theorem c8_state_for_verify_generated_witness : (genVf0.state_for_verify).state = none :=
  (c8_state_for_verify_generated genVf0 (by decide)).1

end NmstateEthernet
